import Mathlib

/-!
Verification of the flow-field tracer core of the lightfastai/brand repository.

The scripts compute over IEEE doubles with the transcendental primitives
Math.cos, Math.sin, Math.atan2, Math.sqrt, Math.pow, Math.PI and a noise
library.  The shallow embedding works over the rationals and passes every
transcendental primitive as an explicit function argument (cosF, sinF,
atan2F, sqrtF, powF, piQ, noise2F, noise3F): the algorithmic structure of
every embedded function mirrors the JavaScript source line by line, while
the primitive values stay abstract.  Theorems about loop structure, lengths
and formula shapes hold for every interpretation of the primitives, which
subsumes the double-precision one.
-/

/-- Point advance of the tracer loop: the JS body
 x += Math.cos(angle) * stepSize; y += Math.sin(angle) * stepSize
with angle = angleF x y (traceFlowLine in sketch-lightfast.js and the
flow-field sketch, traceLine in export-icon.js and sketch-icon.js). -/
def advanceC (angleF : ℚ → ℚ → ℚ) (cosF sinF : ℚ → ℚ) (stepSize : ℚ)
    (p : ℚ × ℚ) : ℚ × ℚ :=
  (p.1 + cosF (angleF p.1 p.2) * stepSize, p.2 + sinF (angleF p.1 p.2) * stepSize)

/-- Bounds test of the tracer loop: the JS condition
 x < minX or x > maxX or y < minY or y > maxY  (holding means out of
bounds; the boundary itself counts as in bounds). -/
def outsideBounds (minX maxX minY maxY : ℚ) (p : ℚ × ℚ) : Prop :=
  p.1 < minX ∨ maxX < p.1 ∨ p.2 < minY ∨ maxY < p.2

instance outsideBoundsDecidable (minX maxX minY maxY : ℚ) (p : ℚ × ℚ) :
    Decidable (outsideBounds minX maxX minY maxY p) := by
  unfold outsideBounds; infer_instance

/-- Core loop shared by traceFlowLine (flow-field sketch and
sketch-lightfast.js) and traceLine (export-icon.js, sketch-icon.js):
for up to n iterations, append the cursor, advance it along the flow
angle, and stop as soon as the advanced cursor leaves the bounds; the
out-of-bounds position is not appended. -/
def traceSteps (angleF : ℚ → ℚ → ℚ) (cosF sinF : ℚ → ℚ)
    (stepSize minX maxX minY maxY : ℚ) : ℕ → ℚ × ℚ → List (ℚ × ℚ)
  | 0, _ => []
  | n + 1, p =>
      p :: (if outsideBounds minX maxX minY maxY (advanceC angleF cosF sinF stepSize p)
            then []
            else traceSteps angleF cosF sinF stepSize minX maxX minY maxY n
                   (advanceC angleF cosF sinF stepSize p))

/-- Embedding of traceFlowLine (flow-field sketch lines 373-397 and
sketch-lightfast.js lines 168-192): bounds are the margin inset of the
canvas, minX = width*margin, maxX = width*(1-margin), and so on for y. -/
def traceFlowLine (angleF : ℚ → ℚ → ℚ) (cosF sinF : ℚ → ℚ)
    (stepSize : ℚ) (lineLength : ℕ)
    (startX startY width height margin : ℚ) : List (ℚ × ℚ) :=
  traceSteps angleF cosF sinF stepSize
    (width * margin) (width * (1 - margin)) (height * margin) (height * (1 - margin))
    lineLength (startX, startY)

/-- Constant-zero angle field, used to instantiate witnesses. -/
def angleZero : ℚ → ℚ → ℚ := fun _ _ => 0

/-- Constant-one unary primitive, used to instantiate cosF in witnesses. -/
def qOne : ℚ → ℚ := fun _ => 1

/-- Constant-zero unary primitive, used to instantiate sinF in witnesses. -/
def qZero : ℚ → ℚ := fun _ => 0

lemma traceSteps_length_le (angleF : ℚ → ℚ → ℚ) (cosF sinF : ℚ → ℚ)
    (stepSize minX maxX minY maxY : ℚ) :
    ∀ (n : ℕ) (p : ℚ × ℚ),
      (traceSteps angleF cosF sinF stepSize minX maxX minY maxY n p).length ≤ n := by
  intro n
  induction n with
  | zero => intro p; simp [traceSteps]
  | succ n ih =>
      intro p
      simp only [traceSteps]
      split
      · simp
      · simpa using Nat.succ_le_succ (ih _)

lemma traceSteps_head (angleF : ℚ → ℚ → ℚ) (cosF sinF : ℚ → ℚ)
    (stepSize minX maxX minY maxY : ℚ) (n : ℕ) (p : ℚ × ℚ) :
    (traceSteps angleF cosF sinF stepSize minX maxX minY maxY n p).head? =
      if n = 0 then none else some p := by
  cases n <;> simp [traceSteps]

lemma traceSteps_full_iff (angleF : ℚ → ℚ → ℚ) (cosF sinF : ℚ → ℚ)
    (stepSize minX maxX minY maxY : ℚ) :
    ∀ (n : ℕ) (p : ℚ × ℚ),
      (traceSteps angleF cosF sinF stepSize minX maxX minY maxY n p).length = n ↔
        ∀ k, 1 ≤ k → k < n →
          ¬ outsideBounds minX maxX minY maxY
              ((advanceC angleF cosF sinF stepSize)^[k] p) := by
  intro n
  induction n with
  | zero =>
      intro p
      constructor
      · intro _ k _ hk
        exact absurd hk (Nat.not_lt_zero k)
      · intro _
        simp [traceSteps]
  | succ n ih =>
      intro p
      simp only [traceSteps]
      by_cases hob : outsideBounds minX maxX minY maxY (advanceC angleF cosF sinF stepSize p)
      · rw [if_pos hob]
        simp only [List.length_cons, List.length_nil]
        constructor
        · intro h k h1 h2
          omega
        · intro h
          rcases Nat.eq_zero_or_pos n with hn | hn
          · omega
          · have h1 := h 1 le_rfl (by omega)
            rw [Function.iterate_one] at h1
            exact absurd hob h1
      · rw [if_neg hob]
        simp only [List.length_cons]
        constructor
        · intro h k h1 h2
          rcases k with _ | k
          · omega
          · rw [Function.iterate_succ_apply]
            rcases Nat.eq_zero_or_pos k with hk | hk
            · subst hk
              simpa using hob
            · exact (ih (advanceC angleF cosF sinF stepSize p)).mp (by omega) k hk (by omega)
        · intro h
          have htail :
              (traceSteps angleF cosF sinF stepSize minX maxX minY maxY n
                (advanceC angleF cosF sinF stepSize p)).length = n := by
            refine (ih (advanceC angleF cosF sinF stepSize p)).mpr ?_
            intro k h1 h2
            have hk := h (k + 1) (by omega) (by omega)
            rwa [Function.iterate_succ_apply] at hk
          omega

/-- C1: if the starting point lies within the bounding region then every
point of the returned polyline lies within the bounding region; the first
out-of-bounds cursor position is never appended.  Stated over the loop
shared by traceFlowLine and traceLine, for every angle field and every
interpretation of the cos and sin primitives. -/
theorem c1_boundary_containment (angleF : ℚ → ℚ → ℚ) (cosF sinF : ℚ → ℚ)
    (stepSize minX maxX minY maxY : ℚ) (n : ℕ) (p : ℚ × ℚ)
    (hp : ¬ outsideBounds minX maxX minY maxY p) :
    ∀ q ∈ traceSteps angleF cosF sinF stepSize minX maxX minY maxY n p,
      ¬ outsideBounds minX maxX minY maxY q := by
  induction n generalizing p with
  | zero => intro q hq; simp [traceSteps] at hq
  | succ n ih =>
      intro q hq
      simp only [traceSteps, List.mem_cons] at hq
      rcases hq with rfl | hq
      · exact hp
      · by_cases hob : outsideBounds minX maxX minY maxY (advanceC angleF cosF sinF stepSize p)
        · rw [if_pos hob] at hq; simp at hq
        · rw [if_neg hob] at hq
          exact ih (advanceC angleF cosF sinF stepSize p) hob q hq

/-- Witness for C1: the spec section 8 example scenario, an in-bounds start
at the origin of the region 0..10 x 0..10 with a constant-zero angle field
and step 5; the trace is the three points (0,0), (5,0), (10,0), all of
which the theorem shows to be in bounds. -/
theorem c1_boundary_containment_witness :
    ¬ outsideBounds 0 10 0 10 ((0 : ℚ), (0 : ℚ)) ∧
    ∀ q ∈ traceSteps angleZero qOne qZero 5 0 10 0 10 3 ((0 : ℚ), (0 : ℚ)),
      ¬ outsideBounds 0 10 0 10 q :=
  ⟨by norm_num [outsideBounds],
   c1_boundary_containment angleZero qOne qZero 5 0 10 0 10 3 ((0 : ℚ), (0 : ℚ))
     (by norm_num [outsideBounds])⟩

/-- C2 counterexample: the length can equal maxSteps even though the cursor
exits the bounds on the final advance.  With bounds 0..10 x 0..10, start
(5,5), step 100 and maxSteps 1, the trace has full length 1 while the
cursor position after the single advance, (105,5), is out of bounds. -/
theorem c2_length_bound_counterexample :
    (traceSteps angleZero qOne qZero 100 0 10 0 10 1 ((5 : ℚ), (5 : ℚ))).length = 1 ∧
    outsideBounds 0 10 0 10 ((advanceC angleZero qOne qZero 100)^[1] ((5 : ℚ), (5 : ℚ))) := by
  constructor
  · norm_num [traceSteps, advanceC, outsideBounds, angleZero, qOne, qZero]
  · norm_num [advanceC, outsideBounds, angleZero, qOne, qZero]

/-- C2 amended: the length of the trace is at most maxSteps, and it equals
maxSteps exactly when none of the cursor positions reached by the first
maxSteps - 1 advances is out of bounds; the cursor may still exit the
bounds on the final advance, whose result is never appended. -/
theorem c2_length_bound_amended (angleF : ℚ → ℚ → ℚ) (cosF sinF : ℚ → ℚ)
    (stepSize minX maxX minY maxY : ℚ) (n : ℕ) (p : ℚ × ℚ) :
    (traceSteps angleF cosF sinF stepSize minX maxX minY maxY n p).length ≤ n ∧
    ((traceSteps angleF cosF sinF stepSize minX maxX minY maxY n p).length = n ↔
      ∀ k, 1 ≤ k → k < n →
        ¬ outsideBounds minX maxX minY maxY
            ((advanceC angleF cosF sinF stepSize)^[k] p)) :=
  ⟨traceSteps_length_le angleF cosF sinF stepSize minX maxX minY maxY n p,
   traceSteps_full_iff angleF cosF sinF stepSize minX maxX minY maxY n p⟩

/-- Witness for C2: the amended statement instantiated at a concrete trace
of two steps inside the region 0..10 x 0..10. -/
theorem c2_length_bound_witness :
    (traceSteps angleZero qOne qZero 1 0 10 0 10 2 ((0 : ℚ), (0 : ℚ))).length ≤ 2 ∧
    ((traceSteps angleZero qOne qZero 1 0 10 0 10 2 ((0 : ℚ), (0 : ℚ))).length = 2 ↔
      ∀ k, 1 ≤ k → k < 2 →
        ¬ outsideBounds 0 10 0 10 ((advanceC angleZero qOne qZero 1)^[k] ((0 : ℚ), (0 : ℚ)))) :=
  c2_length_bound_amended angleZero qOne qZero 1 0 10 0 10 2 ((0 : ℚ), (0 : ℚ))

/-- C10 counterexample: an out-of-bounds start does not always yield a
one-point polyline.  Start (-5,5) is outside the region 0..10 x 0..10, yet
with step 10 the first advance lands at (5,5) inside the region, the loop
continues, and the polyline has two points. -/
theorem c10_start_appended_counterexample :
    outsideBounds 0 10 0 10 ((-5 : ℚ), (5 : ℚ)) ∧
    (traceSteps angleZero qOne qZero 10 0 10 0 10 3 ((-5 : ℚ), (5 : ℚ))).length = 2 := by
  constructor
  · norm_num [outsideBounds]
  · norm_num [traceSteps, advanceC, outsideBounds, angleZero, qOne, qZero]

/-- C10 amended: for maxSteps at least 1 the trace is non-empty and its
first element is the starting point, even when the start is out of bounds
(the start is appended before any bounds check); but the trace only stops
after the first step if the advanced position is also out of bounds, so an
out-of-bounds start does not always give a one-point polyline. -/
theorem c10_start_appended_amended (angleF : ℚ → ℚ → ℚ) (cosF sinF : ℚ → ℚ)
    (stepSize minX maxX minY maxY : ℚ) (n : ℕ) (p : ℚ × ℚ) (hn : 1 ≤ n) :
    traceSteps angleF cosF sinF stepSize minX maxX minY maxY n p ≠ [] ∧
    (traceSteps angleF cosF sinF stepSize minX maxX minY maxY n p).head? = some p := by
  obtain ⟨m, rfl⟩ : ∃ m, n = m + 1 := ⟨n - 1, by omega⟩
  constructor
  · simp [traceSteps]
  · simp [traceSteps]

/-- Witness for C10: the amended statement at maxSteps 1 with start (2,3). -/
theorem c10_start_appended_witness :
    1 ≤ 1 ∧
    (traceSteps angleZero qOne qZero 5 0 10 0 10 1 ((2 : ℚ), (3 : ℚ)) ≠ [] ∧
      (traceSteps angleZero qOne qZero 5 0 10 0 10 1 ((2 : ℚ), (3 : ℚ))).head? =
        some ((2 : ℚ), (3 : ℚ))) :=
  ⟨le_rfl,
   c10_start_appended_amended angleZero qOne qZero 5 0 10 0 10 1 ((2 : ℚ), (3 : ℚ)) le_rfl⟩

/-- Loop body of getFlowAngle in the flow-field sketch (lines 287-302):
state (angle, amplitude, frequency, maxAmplitude) updated once per octave;
the result keeps the accumulated angle and amplitude sum. -/
def octLoop (noise3F : ℚ → ℚ → ℚ → ℚ) (x y time persistence lacunarity : ℚ) :
    ℕ → ℚ → ℚ → ℚ → ℚ → ℚ × ℚ
  | 0, angle, _, _, maxAmplitude => (angle, maxAmplitude)
  | i + 1, angle, amplitude, frequency, maxAmplitude =>
      octLoop noise3F x y time persistence lacunarity i
        (angle + noise3F (x * frequency) (y * frequency) time * amplitude)
        (amplitude * persistence) (frequency * lacunarity) (maxAmplitude + amplitude)

/-- Embedding of the multi-octave getFlowAngle of the flow-field sketch:
angle starts at 0, amplitude at 1, frequency at the base noise scale,
maxAmplitude at 0; after the octave loop the angle is normalized by
maxAmplitude and scaled by the output amplitude. -/
def getFlowAngleOct (noise3F : ℚ → ℚ → ℚ → ℚ) (flowOctaves : ℕ)
    (noiseScale flowPersistence flowLacunarity noiseAmplitude : ℚ)
    (x y time : ℚ) : ℚ :=
  let r := octLoop noise3F x y time flowPersistence flowLacunarity flowOctaves 0 1 noiseScale 0
  r.1 / r.2 * noiseAmplitude

lemma octLoop_spec (noise3F : ℚ → ℚ → ℚ → ℚ) (x y time p l : ℚ) :
    ∀ (n : ℕ) (angle amp freq maxAmp : ℚ),
      octLoop noise3F x y time p l n angle amp freq maxAmp =
        (angle + ∑ i ∈ Finset.range n, noise3F (x * (freq * l ^ i)) (y * (freq * l ^ i)) time
            * (amp * p ^ i),
         maxAmp + ∑ i ∈ Finset.range n, amp * p ^ i) := by
  intro n
  induction n with
  | zero =>
      intro angle amp freq maxAmp
      simp [octLoop]
  | succ n ih =>
      intro angle amp freq maxAmp
      rw [octLoop, ih]
      have hx : ∀ i : ℕ, x * (freq * l * l ^ i) = x * (freq * l ^ (i + 1)) := by
        intro i; rw [pow_succ]; ring
      have hy : ∀ i : ℕ, y * (freq * l * l ^ i) = y * (freq * l ^ (i + 1)) := by
        intro i; rw [pow_succ]; ring
      have ha : ∀ i : ℕ, amp * p * p ^ i = amp * p ^ (i + 1) := by
        intro i; rw [pow_succ]; ring
      simp only [hx, hy, ha]
      rw [Finset.sum_range_succ' (fun i => noise3F (x * (freq * l ^ i)) (y * (freq * l ^ i)) time
            * (amp * p ^ i)) n,
          Finset.sum_range_succ' (fun i => amp * p ^ i) n]
      simp only [pow_zero, mul_one]
      simp only [Prod.mk.injEq]
      constructor <;> ring

lemma getFlowAngleOct_formula (noise3F : ℚ → ℚ → ℚ → ℚ) (k : ℕ)
    (s p l A x y t : ℚ) :
    getFlowAngleOct noise3F k s p l A x y t =
      (∑ i ∈ Finset.range k, noise3F (x * (s * l ^ i)) (y * (s * l ^ i)) t * p ^ i) /
        (∑ i ∈ Finset.range k, p ^ i) * A := by
  rw [getFlowAngleOct, octLoop_spec]
  simp [one_mul, zero_add]

/-- C3: for every noise primitive, octave count k, base scale s,
persistence p, lacunarity l, output amplitude A, coordinates and time, the
multi-octave flow angle equals the sum over octaves i of
noise(x*s*l^i, y*s*l^i, t) * p^i, divided by the sum of the per-octave
amplitudes p^i, times A.  Proved for every k, which covers the claimed
k >= 1. -/
theorem c3_multi_octave_formula (noise3F : ℚ → ℚ → ℚ → ℚ) (k : ℕ)
    (s p l A x y t : ℚ) :
    getFlowAngleOct noise3F k s p l A x y t =
      (∑ i ∈ Finset.range k, noise3F (x * s * l ^ i) (y * s * l ^ i) t * p ^ i) /
        (∑ i ∈ Finset.range k, p ^ i) * A := by
  rw [getFlowAngleOct_formula]
  congr 2
  refine Finset.sum_congr rfl fun i _ => ?_
  rw [mul_assoc, mul_assoc]

/-- C8: if the noise primitive always lies in [-1,1], the persistence is
nonnegative and the configured output amplitude A is nonnegative, then for
every octave count k >= 1 the multi-octave flow angle lies in [-A, A],
independently of k. -/
theorem c8_octave_normalization (noise3F : ℚ → ℚ → ℚ → ℚ) (k : ℕ)
    (s p l A x y t : ℚ) (hk : 1 ≤ k)
    (hnoise : ∀ a b c : ℚ, |noise3F a b c| ≤ 1) (hp : 0 ≤ p) (hA : 0 ≤ A) :
    |getFlowAngleOct noise3F k s p l A x y t| ≤ A := by
  rw [getFlowAngleOct_formula]
  set M : ℚ := ∑ i ∈ Finset.range k, p ^ i with hM
  have hM1 : 1 ≤ M := by
    rw [hM]
    calc (1 : ℚ) = p ^ 0 := by simp
    _ ≤ ∑ i ∈ Finset.range k, p ^ i :=
        Finset.single_le_sum (f := fun i => p ^ i)
          (fun i _ => pow_nonneg hp i) (Finset.mem_range.mpr (by omega))
  have hMpos : 0 < M := lt_of_lt_of_le one_pos hM1
  have hnum : |∑ i ∈ Finset.range k, noise3F (x * (s * l ^ i)) (y * (s * l ^ i)) t * p ^ i| ≤ M := by
    calc |∑ i ∈ Finset.range k, noise3F (x * (s * l ^ i)) (y * (s * l ^ i)) t * p ^ i|
        ≤ ∑ i ∈ Finset.range k, |noise3F (x * (s * l ^ i)) (y * (s * l ^ i)) t * p ^ i| :=
          Finset.abs_sum_le_sum_abs _ _
      _ ≤ ∑ i ∈ Finset.range k, p ^ i := by
          refine Finset.sum_le_sum fun i _ => ?_
          rw [abs_mul, abs_of_nonneg (pow_nonneg hp i)]
          calc |noise3F (x * (s * l ^ i)) (y * (s * l ^ i)) t| * p ^ i
              ≤ 1 * p ^ i := by
                exact mul_le_mul_of_nonneg_right (hnoise _ _ _) (pow_nonneg hp i)
            _ = p ^ i := one_mul _
      _ = M := hM.symm
  rw [abs_mul, abs_div, abs_of_nonneg hA, abs_of_pos hMpos]
  calc |∑ i ∈ Finset.range k, noise3F (x * (s * l ^ i)) (y * (s * l ^ i)) t * p ^ i| / M * A
      ≤ 1 * A := by
        refine mul_le_mul_of_nonneg_right ?_ hA
        rw [div_le_one hMpos]
        exact hnum
    _ = A := one_mul A

/-- Constant noise primitive with value 1/2, used in the C8 witness. -/
def halfNoise : ℚ → ℚ → ℚ → ℚ := fun _ _ _ => 1 / 2

/-- Witness for C8: three octaves with persistence 1/2, lacunarity 2 and
amplitude 7 at a concrete sample point. -/
theorem c8_octave_normalization_witness :
    1 ≤ 3 ∧ (∀ a b c : ℚ, |halfNoise a b c| ≤ 1) ∧ (0 ≤ (1 : ℚ) / 2) ∧ (0 ≤ (7 : ℚ)) ∧
    |getFlowAngleOct halfNoise 3 (1 / 100) (1 / 2) 2 7 5 (-3) 0| ≤ 7 :=
  ⟨by norm_num,
   fun a b c => by unfold halfNoise; rw [abs_le]; constructor <;> norm_num,
   by norm_num,
   by norm_num,
   c8_octave_normalization halfNoise 3 (1 / 100) (1 / 2) 2 7 5 (-3) 0 (by norm_num)
     (fun a b c => by unfold halfNoise; rw [abs_le]; constructor <;> norm_num)
     (by norm_num) (by norm_num)⟩

/-- Parameter record of export-icon.js (lines 28-39).  The color strings
play no role in the geometry and are omitted; noiseStrength is pi * 0.4
and keeps the pi primitive abstract through the piQ argument of
exportIconParams. -/
structure IconParams where
  lineCount : ℕ
  strokeWidthRatio : ℚ
  noiseScale : ℚ
  noiseStrength : ℚ
  lineLength : ℕ
  stepSize : ℚ
  margin : ℚ
  radialStrength : ℚ

/-- Concrete parameter values of export-icon.js: lineCount 5,
strokeWidthRatio 0.045, noiseScale 0.004, noiseStrength pi*0.4,
lineLength 35, stepSize 12, margin 0.1, radialStrength 0.75. -/
def exportIconParams (piQ : ℚ) : IconParams :=
  { lineCount := 5, strokeWidthRatio := 9 / 200, noiseScale := 1 / 250,
    noiseStrength := piQ * (2 / 5), lineLength := 35, stepSize := 12,
    margin := 1 / 10, radialStrength := 3 / 4 }

/-- Embedding of noise2D in export-icon.js (lines 19-22):
 n = sin(x*12.9898 + y*78.233) * 43758.5453; return fract(n)*2 - 1,
with Math.sin abstracted as sinF. -/
def noise2Dexp (sinF : ℚ → ℚ) (x y : ℚ) : ℚ :=
  let n := sinF (x * (129898 / 10000) + y * (78233 / 1000)) * (437585453 / 10000)
  (n - ⌊n⌋) * 2 - 1

/-- Embedding of getFlowAngle in export-icon.js (lines 41-61): the radial
angle is NOT multiplied by the radial strength; only the noise angle is
attenuated by (1 - radialStrength). -/
def getFlowAngleExp (sinF : ℚ → ℚ) (atan2F : ℚ → ℚ → ℚ) (sqrtF : ℚ → ℚ)
    (P : IconParams) (x y width height : ℚ) : ℚ :=
  let cx := width / 2
  let cy := height / 2
  let dx := x - cx
  let dy := y - cy
  let radialAngle := atan2F dy dx
  let dist := sqrtF (dx * dx + dy * dy)
  let maxDist := sqrtF (cx * cx + cy * cy)
  let normDist := dist / maxDist
  let noiseVal := noise2Dexp sinF (x * P.noiseScale) (y * P.noiseScale)
  let noiseAngle := noiseVal * P.noiseStrength * normDist
  radialAngle + noiseAngle * (1 - P.radialStrength)

/-- Embedding of traceLine in export-icon.js (lines 63-77): the margin is
computed from the width only and bounds both axes, maxY being
height - margin. -/
def traceLineExp (cosF sinF : ℚ → ℚ) (atan2F : ℚ → ℚ → ℚ) (sqrtF : ℚ → ℚ)
    (P : IconParams) (startX startY width height : ℚ) : List (ℚ × ℚ) :=
  traceSteps (fun a b => getFlowAngleExp sinF atan2F sqrtF P a b width height) cosF sinF
    P.stepSize (width * P.margin) (width - width * P.margin) (width * P.margin)
    (height - width * P.margin) P.lineLength (startX, startY)

/-- Step of the linear congruential generator in export-icon.js (line 15):
 seed = (seed * 1664525 + 1013904223) % 4294967296. -/
def nextSeed (s : ℕ) : ℕ := (s * 1664525 + 1013904223) % 4294967296

/-- Embedding of seededRandom in export-icon.js (lines 14-17): advance the
seed and return the new seed scaled to [0,1). -/
def seededRandom (s : ℕ) : ℚ × ℕ := ((nextSeed s : ℚ) / 4294967296, nextSeed s)

/-- Embedding of resetSeed in export-icon.js (lines 24-26): whatever the
mutable seed holds, it is reset to the constant 54321. -/
def resetSeed (_ : ℕ) : ℕ := 54321

/-- Embedding of getSpawnPoints in export-icon.js (lines 79-100): lineCount
points on a ring of radius width*0.15 around the center, the ring radius
jittered by one seededRandom draw per point; the mutable seed is threaded
explicitly. -/
def getSpawnPointsExp (cosF sinF : ℚ → ℚ) (piQ : ℚ) (P : IconParams)
    (width height : ℚ) (s : ℕ) : List (ℚ × ℚ) × ℕ :=
  (List.range P.lineCount).foldl
    (fun st i =>
      let angle := -piQ * (3 / 5) + ((i : ℚ) / (P.lineCount : ℚ)) * piQ * 2
      let r := width * (3 / 20) * (4 / 5 + (seededRandom st.2).1 * (2 / 5))
      (st.1 ++ [(width / 2 + cosF angle * r, height / 2 + sinF angle * r)],
       (seededRandom st.2).2))
    ([], s)

/-- Embedding of the renderIcon pipeline of export-icon.js (lines 122-153,
geometry only): reset the seed, generate the spawn points at design size
512, then trace a flow line from each spawn point. -/
def renderIconPoints (cosF sinF : ℚ → ℚ) (atan2F : ℚ → ℚ → ℚ) (sqrtF : ℚ → ℚ)
    (piQ : ℚ) (s : ℕ) : List (List (ℚ × ℚ)) × ℕ :=
  let P := exportIconParams piQ
  let sp := getSpawnPointsExp cosF sinF piQ P 512 512 (resetSeed s)
  (sp.1.map fun q => traceLineExp cosF sinF atan2F sqrtF P q.1 q.2 512 512, sp.2)

/-- C4: determinism of the export-icon pipeline.  For every interpretation
of the primitives and any two prior states s1, s2 of the mutable seed, the
spawn-point generator and the full spawn-and-trace pipeline run after
resetSeed produce identical point sequences: the output depends only on
the constant seed 54321 and the parameters, so two independent invocations
agree exactly. -/
theorem c4_determinism (cosF sinF : ℚ → ℚ) (atan2F : ℚ → ℚ → ℚ) (sqrtF : ℚ → ℚ)
    (piQ : ℚ) (s1 s2 : ℕ) :
    getSpawnPointsExp cosF sinF piQ (exportIconParams piQ) 512 512 (resetSeed s1) =
      getSpawnPointsExp cosF sinF piQ (exportIconParams piQ) 512 512 (resetSeed s2) ∧
    renderIconPoints cosF sinF atan2F sqrtF piQ s1 =
      renderIconPoints cosF sinF atan2F sqrtF piQ s2 :=
  ⟨rfl, rfl⟩

lemma advanceC_step_zero (angleF : ℚ → ℚ → ℚ) (cosF sinF : ℚ → ℚ) (p : ℚ × ℚ) :
    advanceC angleF cosF sinF 0 p = p := by
  simp [advanceC]

lemma traceSteps_fixed (angleF : ℚ → ℚ → ℚ) (cosF sinF : ℚ → ℚ)
    (stepSize minX maxX minY maxY : ℚ) (p : ℚ × ℚ)
    (hfix : advanceC angleF cosF sinF stepSize p = p)
    (hin : ¬ outsideBounds minX maxX minY maxY p) :
    ∀ n, traceSteps angleF cosF sinF stepSize minX maxX minY maxY n p =
      List.replicate n p := by
  intro n
  induction n with
  | zero => simp [traceSteps]
  | succ n ih =>
      rw [traceSteps, hfix, if_neg hin, ih, List.replicate_succ]

/-- Parameter record of export-icon.js with the malformed step size 0:
per the claim this configuration should be rejected at construction time,
but the code has no validation and the record is built without error. -/
def exportIconParamsZeroStep : IconParams :=
  { exportIconParams (355 / 113) with stepSize := 0 }

/-- C9 counterexample: no configuration validation exists and no failure
occurs.  The malformed configuration with step size 0 is constructed
without any error, and tracing with it returns an ordinary polyline: the
cursor never moves, never leaves the bounds, and the full 35-point
polyline of copies of the start is returned instead of any
configuration-validation failure. -/
theorem c9_no_validation_counterexample :
    exportIconParamsZeroStep.stepSize = 0 ∧
    traceLineExp qOne qZero angleZero qZero exportIconParamsZeroStep 256 256 512 512 =
      List.replicate 35 ((256 : ℚ), (256 : ℚ)) := by
  constructor
  · rfl
  · rw [traceLineExp]
    exact traceSteps_fixed _ qOne qZero _ _ _ _ _ _
      (advanceC_step_zero _ _ _ _)
      (by norm_num [outsideBounds, exportIconParamsZeroStep, exportIconParams]) 35

/-- C9 amended: the code has no configuration validation and construction
cannot fail; the tracer is a total function that, for every configuration
record including malformed ones (non-positive step size, zero-size or
degenerate bounds), returns a polyline of length at most lineLength whose
head is the starting point; there is no runtime trace failure. -/
theorem c9_totality_amended (cosF sinF : ℚ → ℚ) (atan2F : ℚ → ℚ → ℚ) (sqrtF : ℚ → ℚ)
    (P : IconParams) (startX startY width height : ℚ) :
    (traceLineExp cosF sinF atan2F sqrtF P startX startY width height).length ≤ P.lineLength ∧
    (traceLineExp cosF sinF atan2F sqrtF P startX startY width height).head? =
      (if P.lineLength = 0 then none else some (startX, startY)) := by
  rw [traceLineExp]
  exact ⟨traceSteps_length_le _ _ _ _ _ _ _ _ _ _,
         traceSteps_head _ _ _ _ _ _ _ _ _ _⟩

/-- Spawn pattern selector of the flow-field sketch generateSpawnPositions
(lines 307-368); the switch default falls through to the random case. -/
inductive SpawnPattern
  | random
  | grid
  | center
  | circle

/-- Ceiling of the square root on naturals: the value of
 Math.ceil(Math.sqrt(count)) used for the grid column count. -/
def ceilSqrt (n : ℕ) : ℕ :=
  if Nat.sqrt n * Nat.sqrt n = n then Nat.sqrt n else Nat.sqrt n + 1

/-- JavaScript division with a zero divisor produces NaN or an infinity
rather than a finite number; the embedding models a coordinate that is not
a finite number as none. -/
def jsDiv (a b : ℚ) : Option ℚ := if b = 0 then none else some (a / b)

/-- Grid coordinate of the flow-field sketch grid case:
 offset + (idx / (total - 1)) * size, propagating the non-finite value
that JS produces when total = 1 (division 0/0). -/
def gridCoord (offset size : ℚ) (idx total : ℕ) : Option ℚ :=
  match jsDiv (idx : ℚ) ((total : ℚ) - 1) with
  | none => none
  | some q => some (offset + q * size)

/-- Embedding of generateSpawnPositions in the flow-field sketch
(lines 307-368).  The library RNG is modeled as a stream rnd of draws
consumed left to right from index k0: random.value() takes one draw and
random.gaussian(m, sd) is modeled as m + sd * draw.  Coordinates are
Option-valued: some q is the finite number q, none is a non-finite JS
value (NaN or infinity); only the grid case with a single column or row
can produce none. -/
def generateSpawnPositionsP0 (cosF sinF : ℚ → ℚ) (piQ : ℚ) (rnd : ℕ → ℚ)
    (pattern : SpawnPattern) (width height : ℚ) (count : ℕ) (margin : ℚ)
    (k0 : ℕ) : List (Option ℚ × Option ℚ) :=
  match pattern with
  | .grid =>
      (List.range count).map fun i =>
        (gridCoord (width * margin) (width * (1 - margin * 2)) (i % ceilSqrt count)
           (ceilSqrt count),
         gridCoord (height * margin) (height * (1 - margin * 2)) (i / ceilSqrt count)
           (Nat.ceil ((count : ℚ) / (ceilSqrt count : ℚ))))
  | .center =>
      (List.range count).map fun i =>
        let maxRadius := min (width * (1 - margin * 2)) (height * (1 - margin * 2)) / 2
        let r := rnd (k0 + 2 * i) * maxRadius
        let theta := rnd (k0 + 2 * i + 1) * piQ * 2
        (some (width / 2 + cosF theta * r), some (height / 2 + sinF theta * r))
  | .circle =>
      (List.range count).map fun (i : ℕ) =>
        let radius := min (width * (1 - margin * 2)) (height * (1 - margin * 2)) * (2 / 5)
        let angle := ((i : ℚ) / (count : ℚ)) * piQ * 2
        let jitter := 0 + 10 * rnd (k0 + i)
        (some (width / 2 + cosF angle * (radius + jitter)),
         some (height / 2 + sinF angle * (radius + jitter)))
  | .random =>
      (List.range count).map fun i =>
        (some (width * margin + rnd (k0 + 2 * i) * (width * (1 - margin * 2))),
         some (height * margin + rnd (k0 + 2 * i + 1) * (height * (1 - margin * 2))))

/-- Inner particle loop of the radial-burst case in sketch-lightfast.js
(lines 137-147): runs for i < particleCount while fewer than count points
exist, pushing one jittered ring point per iteration and consuming two
draws; points carry their ring index. -/
def burstInner (cosF sinF : ℚ → ℚ) (piQ : ℚ) (rnd : ℕ → ℚ)
    (cx cy ringRadius : ℚ) (particleCount count ring : ℕ)
    (st : List (ℚ × ℚ × ℕ) × ℕ) : List (ℚ × ℚ × ℕ) × ℕ :=
  (List.range particleCount).foldl
    (fun st (i : ℕ) =>
      if st.1.length < count then
        let angle := ((i : ℚ) / (particleCount : ℚ)) * piQ * 2 + (0 + (1 / 10) * rnd st.2)
        let jitter := 0 + ringRadius * (1 / 10) * rnd (st.2 + 1)
        (st.1 ++ [(cx + cosF angle * (ringRadius + jitter),
                   cy + sinF angle * (ringRadius + jitter), ring)], st.2 + 2)
      else st) st

/-- Embedding of generateSpawnPositions in sketch-lightfast.js
(lines 120-163), radial-burst pattern: 12 rings whose radius grows as
 ((ring+1)/12)^0.7 (fractional power abstracted as powF), with
 floor(count/12) base particles per ring scaled by (1 + ring*0.3), then a
center fill of floor(count*0.1) points with no length guard, and finally
slice(0, count). -/
def generateSpawnPositionsLF (cosF sinF : ℚ → ℚ) (piQ : ℚ) (powF : ℚ → ℚ → ℚ)
    (rnd : ℕ → ℚ) (width height : ℚ) (count : ℕ) (margin : ℚ) (k0 : ℕ) :
    List (ℚ × ℚ × ℕ) :=
  let centerX := width / 2
  let centerY := height / 2
  let maxRadius := min width height * (1 / 2 - margin)
  let particlesPerRing := count / 12
  let st1 := (List.range 12).foldl
    (fun st (ring : ℕ) =>
      let ringRadius := maxRadius * powF (((ring : ℚ) + 1) / 12) (7 / 10)
      let particleCount := (⌊(particlesPerRing : ℚ) * (1 + (ring : ℚ) * (3 / 10))⌋).toNat
      burstInner cosF sinF piQ rnd centerX centerY ringRadius particleCount count ring st)
    (([] : List (ℚ × ℚ × ℕ)), k0)
  let centerCount := (⌊(count : ℚ) * (1 / 10)⌋).toNat
  let st2 := (List.range centerCount).foldl
    (fun st _i =>
      let r := rnd st.2 * maxRadius * (3 / 10)
      let theta := rnd (st.2 + 1) * piQ * 2
      (st.1 ++ [(centerX + cosF theta * r, centerY + sinF theta * r, 0)], st.2 + 2))
    st1
  st2.1.take count

/-- Constant-zero draw stream, used to instantiate counterexamples. -/
def rndZero : ℕ → ℚ := fun _ => 0

/-- Constant-zero power primitive, used to instantiate counterexamples. -/
def powZero : ℚ → ℚ → ℚ := fun _ _ => 0

/-- C5 counterexample: the radial-burst generator underproduces.  For the
requested count 5 the base particles per ring are floor(5/12) = 0, every
ring gets floor(0 * (1 + 0.3*ring)) = 0 particles, the center fill adds
floor(5 * 0.1) = 0 points, and the returned sequence is empty instead of
having length 5. -/
theorem c5_spawn_count_counterexample :
    generateSpawnPositionsLF qOne qZero (355 / 113) powZero rndZero 1024 1024 5 (2 / 25) 0
      = [] := by
  norm_num [generateSpawnPositionsLF, burstInner, List.range_succ]

/-- C5 amended: the flow-field sketch generator returns exactly count
points for each of its four patterns (random, grid, center, circle), for
every count; the sketch-lightfast radial-burst generator truncates to at
most count points but can return fewer. -/
theorem c5_spawn_count_amended (cosF sinF : ℚ → ℚ) (piQ : ℚ) (powF : ℚ → ℚ → ℚ)
    (rnd : ℕ → ℚ) (pattern : SpawnPattern) (width height : ℚ) (count : ℕ)
    (margin : ℚ) (k0 : ℕ) :
    (generateSpawnPositionsP0 cosF sinF piQ rnd pattern width height count margin k0).length
      = count ∧
    (generateSpawnPositionsLF cosF sinF piQ powF rnd width height count margin k0).length
      ≤ count := by
  constructor
  · cases pattern <;>
      simp only [generateSpawnPositionsP0] <;>
      rw [List.length_map, List.length_range]
  · simp only [generateSpawnPositionsLF]
    rw [List.length_take]
    exact min_le_left _ _

/-- C6: for the grid pattern with count 1 the code divides 0 by 0 in both
coordinates (cols - 1 = rows - 1 = 0), so the single returned spawn point
has non-finite (NaN) coordinates, not the region center or a defined
corner required by the claim. -/
theorem c6_grid_count_one_nan :
    generateSpawnPositionsP0 qOne qZero (355 / 113) rndZero .grid 1024 1024 1 (1 / 10) 0 =
      [(none, none)] := by
  norm_num [generateSpawnPositionsP0, gridCoord, jsDiv, ceilSqrt, Nat.sqrt_one,
    List.range_succ]

/-- Parameter record of sketch-lightfast.js (lines 31-80); the color table
and spawn pattern string are omitted, the numeric fields are kept. -/
structure LFParams where
  gridResolution : ℕ
  lineCount : ℕ
  lineLength : ℕ
  stepSize : ℚ
  noiseScale : ℚ
  noiseAmplitude : ℚ
  lineWidthMin : ℚ
  lineWidthMax : ℚ
  opacityMin : ℚ
  opacityMax : ℚ
  margin : ℚ
  radialInfluence : ℚ
  spiralTwist : ℚ

/-- Concrete parameter values of sketch-lightfast.js: noiseScale 0.0015,
noiseAmplitude pi*1.5, margin 0.08, radialInfluence 0.4, spiralTwist 0.2. -/
def lightfastParams (piQ : ℚ) : LFParams :=
  { gridResolution := 60, lineCount := 600, lineLength := 100, stepSize := 3,
    noiseScale := 3 / 2000, noiseAmplitude := piQ * (3 / 2),
    lineWidthMin := 3 / 10, lineWidthMax := 3 / 2, opacityMin := 1 / 5,
    opacityMax := 4 / 5, margin := 2 / 25, radialInfluence := 2 / 5,
    spiralTwist := 1 / 5 }

/-- Parameter record of sketch-icon.js (lines 20-47), numeric fields. -/
structure SIParams where
  lineCount : ℕ
  strokeWidth : ℚ
  noiseScale : ℚ
  noiseStrength : ℚ
  lineLength : ℕ
  stepSize : ℚ
  margin : ℚ
  radialStrength : ℚ

/-- Concrete parameter values of sketch-icon.js: noiseScale 0.003,
noiseStrength pi*0.8, margin 0.12, radialStrength 0.6. -/
def sketchIconParams (piQ : ℚ) : SIParams :=
  { lineCount := 5, strokeWidth := 3 / 50, noiseScale := 3 / 1000,
    noiseStrength := piQ * (4 / 5), lineLength := 60, stepSize := 8,
    margin := 3 / 25, radialStrength := 3 / 5 }

/-- Embedding of getFlowAngle in sketch-lightfast.js (lines 90-115):
radial angle weighted by radialInfluence * (1 - normalizedDist * 0.5),
noise angle weighted by the complement, plus the spiral term
 normalizedDist * spiralTwist * pi. -/
def getFlowAngleLF (noise2F : ℚ → ℚ → ℚ) (atan2F : ℚ → ℚ → ℚ) (sqrtF : ℚ → ℚ)
    (P : LFParams) (piQ : ℚ) (x y width height : ℚ) : ℚ :=
  let centerX := width / 2
  let centerY := height / 2
  let dx := x - centerX
  let dy := y - centerY
  let radialAngle := atan2F dy dx
  let maxDist := sqrtF (centerX * centerX + centerY * centerY)
  let dist := sqrtF (dx * dx + dy * dy)
  let normalizedDist := dist / maxDist
  let noiseAngle := noise2F (x * P.noiseScale) (y * P.noiseScale) * P.noiseAmplitude
  let radialWeight := P.radialInfluence * (1 - normalizedDist * (1 / 2))
  let spiralAngle := normalizedDist * P.spiralTwist * piQ
  radialAngle * radialWeight + noiseAngle * (1 - radialWeight) + spiralAngle

/-- Embedding of getFlowAngle in sketch-icon.js (lines 52-64): radial angle
weighted by the constant radialStrength, noise angle by its complement,
no spiral term. -/
def getFlowAngleSI (noise2F : ℚ → ℚ → ℚ) (atan2F : ℚ → ℚ → ℚ)
    (P : SIParams) (x y width height : ℚ) : ℚ :=
  let cx := width / 2
  let cy := height / 2
  let dx := x - cx
  let dy := y - cy
  let radialAngle := atan2F dy dx
  let noiseV := noise2F (x * P.noiseScale) (y * P.noiseScale)
  let noiseAngle := noiseV * P.noiseStrength
  radialAngle * P.radialStrength + noiseAngle * (1 - P.radialStrength)

/-- Radial-blend formula as the spec words it: atan2(y-cy, x-cx) times a
radial weight (possibly a function of the normalized distance from
center), plus the noise angle times the complementary weight, plus the
spiral term normalizedDistance * spiralTwist * pi.  This definition
follows the spec, to be compared with the code-derived angle functions. -/
def specRadialBlend (atan2F : ℚ → ℚ → ℚ) (noiseAngleF : ℚ → ℚ → ℚ)
    (radialWeightF : ℚ → ℚ) (normDistF : ℚ → ℚ → ℚ)
    (spiralTwist piQ cx cy x y : ℚ) : ℚ :=
  atan2F (y - cy) (x - cx) * radialWeightF (normDistF x y) +
    noiseAngleF x y * (1 - radialWeightF (normDistF x y)) +
    normDistF x y * spiralTwist * piQ

/-- C7 amended: the sketch-lightfast angle matches the spec radial-blend
formula with the distance-dependent weight radialInfluence*(1 - d/2) and
spiral term; the sketch-icon angle matches it with the constant weight
radialStrength and no spiral term; but the export-icon angle is NOT of
that form: its radial term has coefficient 1 instead of the radial weight,
 angle = atan2(dy,dx) + noiseVal*noiseStrength*normDist*(1-radialStrength). -/
theorem c7_radial_blend_amended (noise2F : ℚ → ℚ → ℚ) (atan2F : ℚ → ℚ → ℚ)
    (sqrtF : ℚ → ℚ) (sinF : ℚ → ℚ) (PL : LFParams) (PS : SIParams) (PE : IconParams)
    (piQ x y width height : ℚ) :
    getFlowAngleLF noise2F atan2F sqrtF PL piQ x y width height =
      specRadialBlend atan2F
        (fun a b => noise2F (a * PL.noiseScale) (b * PL.noiseScale) * PL.noiseAmplitude)
        (fun d => PL.radialInfluence * (1 - d * (1 / 2)))
        (fun a b => sqrtF ((a - width / 2) * (a - width / 2) +
            (b - height / 2) * (b - height / 2)) /
          sqrtF ((width / 2) * (width / 2) + (height / 2) * (height / 2)))
        PL.spiralTwist piQ (width / 2) (height / 2) x y ∧
    getFlowAngleSI noise2F atan2F PS x y width height =
      specRadialBlend atan2F
        (fun a b => noise2F (a * PS.noiseScale) (b * PS.noiseScale) * PS.noiseStrength)
        (fun _ => PS.radialStrength) (fun _ _ => 0) 0 piQ
        (width / 2) (height / 2) x y ∧
    getFlowAngleExp sinF atan2F sqrtF PE x y width height =
      atan2F (y - height / 2) (x - width / 2) +
        noise2Dexp sinF (x * PE.noiseScale) (y * PE.noiseScale) * PE.noiseStrength *
          (sqrtF ((x - width / 2) * (x - width / 2) +
              (y - height / 2) * (y - height / 2)) /
            sqrtF ((width / 2) * (width / 2) + (height / 2) * (height / 2))) *
          (1 - PE.radialStrength) := by
  refine ⟨?_, ?_, ?_⟩ <;>
    · simp only [getFlowAngleLF, getFlowAngleSI, getFlowAngleExp, specRadialBlend]
      try ring

/-- Rational stand-in for pi, used in the C7 counterexample. -/
def piCE : ℚ := 355 / 113

/-- Sine argument that export-icon noise2D computes at the probe point
(256, 356) of the C7 counterexample. -/
def tP3 : ℚ := (256 * (1 / 250)) * (129898 / 10000) + (356 * (1 / 250)) * (78233 / 1000)

/-- Concrete sine interpretation for the C7 counterexample: at the probe
point (256,356) the hash sine returns 0 (so noise2D returns -1) and
everywhere else it returns the value that makes noise2D return 0. -/
def sinCE : ℚ → ℚ := fun t => if t = tP3 then 0 else 5000 / 437585453

/-- Concrete atan2 interpretation for the C7 counterexample: 3 on the left
half plane (negative x argument), 0 elsewhere, mimicking the sign split of
the real atan2. -/
def atan2CE : ℚ → ℚ → ℚ := fun _ x => if x < 0 then 3 else 0

/-- Concrete square-root interpretation for the C7 counterexample: the
identity, so equal squared distances give equal normalized distances. -/
def sqrtCE : ℚ → ℚ := fun q => q

/-- Normalized distance from center exactly as export-icon.js computes it
at design size 512 under the sqrtCE interpretation; this is the claim-side
normalized distance of the C7 counterexample. -/
def ndCE (x y : ℚ) : ℚ :=
  sqrtCE ((x - 256) * (x - 256) + (y - 256) * (y - 256)) / sqrtCE (256 * 256 + 256 * 256)

/-- Noise angle exactly as export-icon.js computes it at design size 512
under the concrete primitives: noiseVal * noiseStrength * normDist; this
is the claim-side noise angle of the C7 counterexample. -/
def nACE (x y : ℚ) : ℚ :=
  noise2Dexp sinCE (x * (1 / 250)) (y * (1 / 250)) * (piCE * (2 / 5)) * ndCE x y

/-- C7 counterexample: for the export-icon angle function there is NO
radial weight function of the normalized distance and NO spiral twist for
which the spec radial-blend formula reproduces the code, because the code
leaves the radial term unweighted.  The three probe points (356,256),
(156,256) and (256,356) share the same normalized distance; the first two
force the weight at that distance to 1 and the spiral contribution to 0,
and the third then contradicts the code value. -/
theorem c7_radial_blend_counterexample :
    ¬ ∃ (w : ℚ → ℚ) (st : ℚ), ∀ x y : ℚ,
        getFlowAngleExp sinCE atan2CE sqrtCE (exportIconParams piCE) x y 512 512 =
          specRadialBlend atan2CE nACE w ndCE st piCE 256 256 x y := by
  rintro ⟨w, st, h⟩
  have e1 : getFlowAngleExp sinCE atan2CE sqrtCE (exportIconParams piCE) 356 256 512 512 = 0 := by
    norm_num [getFlowAngleExp, noise2Dexp, sinCE, atan2CE, sqrtCE, exportIconParams, tP3, piCE]
  have e2 : getFlowAngleExp sinCE atan2CE sqrtCE (exportIconParams piCE) 156 256 512 512 = 3 := by
    norm_num [getFlowAngleExp, noise2Dexp, sinCE, atan2CE, sqrtCE, exportIconParams, tP3, piCE]
  have e3 : getFlowAngleExp sinCE atan2CE sqrtCE (exportIconParams piCE) 256 356 512 512 =
      -(44375 / 1851392) := by
    norm_num [getFlowAngleExp, noise2Dexp, sinCE, atan2CE, sqrtCE, exportIconParams, tP3, piCE]
  have d1 : ndCE 356 256 = 625 / 8192 := by norm_num [ndCE, sqrtCE]
  have d2 : ndCE 156 256 = 625 / 8192 := by norm_num [ndCE, sqrtCE]
  have d3 : ndCE 256 356 = 625 / 8192 := by norm_num [ndCE, sqrtCE]
  have a1 : nACE 356 256 = 0 := by
    norm_num [nACE, noise2Dexp, sinCE, tP3, piCE, ndCE, sqrtCE]
  have a2 : nACE 156 256 = 0 := by
    norm_num [nACE, noise2Dexp, sinCE, tP3, piCE, ndCE, sqrtCE]
  have a3 : nACE 256 356 = -(44375 / 462848) := by
    norm_num [nACE, noise2Dexp, sinCE, tP3, piCE, ndCE, sqrtCE]
  have h1 := h 356 256
  have h2 := h 156 256
  have h3 := h 256 356
  rw [e1, specRadialBlend, d1, a1] at h1
  rw [e2, specRadialBlend, d2, a2] at h2
  rw [e3, specRadialBlend, d3, a3] at h3
  norm_num [atan2CE, piCE] at h1 h2 h3
  linarith
